import Mathlib

/-!
Verification of the climate-controller core of the repository
`Teamprojekt-Raumautomation` (variant `Raumautomation 2Arduino Raspberry`,
module `pi_backend/serial_manager.py`, together with the settings and
live-data endpoints of `pi_backend/app.py`).

The Python code is shallowly embedded: floats become rationals, JSON
values become a small inductive type, the mutable `SerialManager` object
becomes an explicit record threaded through the control step, and the
exception paths of the worker loop become `Except` results carrying the
state at the point where the exception is raised.
-/

/-- Values a parsed JSON object can hold at a key, as seen by the worker
after `json.loads`: a number, a string, or null.  (Keys whose value is
null are indistinguishable from absent keys after `dict.get`.) -/
inductive JVal where
  | num (q : ℚ)
  | str (s : String)
  | null
deriving DecidableEq, Repr

/-- A parsed JSON object: an association list from keys to values. -/
def JObj : Type := List (String × JVal)

/-- Python `data.get(k)`: `none` when the key is absent; a JSON null at
the key also yields Python `None`, hence `none` here.  (The association
list stands for the parsed dict, so keys are assumed distinct.) -/
def jget (data : JObj) (k : String) : Option JVal :=
  match data with
  | [] => none
  | (k1, v) :: rest =>
    if k1 = k then (if v = JVal.null then none else some v) else jget rest k

/-- The clamp helper of the PID library: the upper bound is checked
first, then the lower bound (`_clamp(value, (lower, upper))`). -/
def clampQ (x lo hi : ℚ) : ℚ :=
  if x > hi then hi else if x < lo then lo else x

/-- Python `int()` applied to a float: truncation toward zero. -/
def pyInt (q : ℚ) : ℤ :=
  if 0 ≤ q then ⌊q⌋ else ⌈q⌉

/-- State of one PID controller: gain tuple, setpoint, integral
accumulator, previous input, and the output limits `(outMin, outMax)`. -/
structure PIDState where
  Kp : ℚ
  Ki : ℚ
  Kd : ℚ
  setpoint : ℚ
  integral : ℚ
  lastInput : Option ℚ
  outMin : ℚ
  outMax : ℚ
deriving DecidableEq, Repr

/-- Modelled from the spec: the update rule of the external `simple_pid`
controller invoked as `self.pid_temp(measurement)`; the library itself is
not part of `src/`.  Section 4.3 of the design gives
`output = clamp(Kp*error + Ki*integral + Kd*derivative, low, high)` with
`error = setpoint - measurement`, the integral accumulated over the real
elapsed time `dt` between samples and clamped to the same output limits,
and the derivative taken on the measurement.  Returns the output and the
updated controller state. -/
def pidCall (st : PIDState) (input dt : ℚ) : ℚ × PIDState :=
  let error := st.setpoint - input
  let dInput := input - (st.lastInput.getD input)
  let p := st.Kp * error
  let i := clampQ (st.integral + st.Ki * error * dt) st.outMin st.outMax
  let d := -(st.Kd * dInput) / dt
  let out := clampQ (p + i + d) st.outMin st.outMax
  (out, { st with integral := i, lastInput := some input })

/-- The mutable fields of `SerialManager` that the control step touches
(`serial_manager.py`, `__init__` lines 18-39). -/
structure MgrState where
  current_temp : Option JVal
  current_hum : Option JVal
  current_fan_speed : ℤ
  control_mode : String
  target_temp : ℚ
  target_hum : ℚ
  pid_temp : PIDState
  pid_hum : PIDState
deriving DecidableEq, Repr

/-- Temperature PID as constructed in `__init__`:
`PID(-10, -0.1, -0.05, setpoint=target_temp)` with output limits
`(0, 255)`. -/
def initPidTemp : PIDState :=
  { Kp := -10, Ki := -1/10, Kd := -1/20, setpoint := 22, integral := 0,
    lastInput := none, outMin := 0, outMax := 255 }

/-- Humidity PID as constructed in `__init__`:
`PID(-5, -0.05, -0.01, setpoint=target_hum)` with output limits
`(0, 255)`. -/
def initPidHum : PIDState :=
  { Kp := -5, Ki := -1/20, Kd := -1/100, setpoint := 50, integral := 0,
    lastInput := none, outMin := 0, outMax := 255 }

/-- The manager state right after `SerialManager.__init__`. -/
def initMgrState : MgrState :=
  { current_temp := none, current_hum := none, current_fan_speed := 0,
    control_mode := "TEMP", target_temp := 22, target_hum := 50,
    pid_temp := initPidTemp, pid_hum := initPidHum }

/-- The `/api/settings` handler of `app.py` (lines 52-61): each posted
field is stored directly; in particular the posted `control_mode` string
is stored without validation. -/
def update_settings (st : MgrState) (tt th : Option ℚ) (cm : Option String) :
    MgrState :=
  let st1 := match tt with
    | some q => { st with target_temp := q }
    | none => st
  let st2 := match th with
    | some q => { st1 with target_hum := q }
    | none => st1
  match cm with
  | some m => { st2 with control_mode := m }
  | none => st2

/-- Lines 127-129 of `_worker`: the parsed values at keys `temp` and
`hum` are stored into the shared readings, under the lock. -/
def storeReadings (st : MgrState) (data : JObj) : MgrState :=
  { st with current_temp := jget data "temp", current_hum := jget data "hum" }

/-- Lines 137-138 of `_worker`: both setpoints are refreshed from the
shared targets before the controllers run. -/
def refreshSetpoints (st : MgrState) : MgrState :=
  { st with pid_temp := { st.pid_temp with setpoint := st.target_temp },
            pid_hum := { st.pid_hum with setpoint := st.target_hum } }

/-- Lines 144-151 of `_worker`: mode arbitration of the two controller
demands (any unrecognized mode string leaves `final_speed` at 0). -/
def arbitrate (mode : String) (speed_temp speed_hum : ℤ) : ℤ :=
  if mode = "TEMP" then speed_temp
  else if mode = "HUM" then speed_hum
  else if mode = "AUTO" then max speed_temp speed_hum
  else 0

/-- Lines 141-153 of `_worker` for a numeric sample, after the setpoint
refresh: run both controllers in order, arbitrate, store the result in
`current_fan_speed`; the second component is the command sent to the
motor (lines 156-158). -/
def controlStep (st : MgrState) (t hv dt : ℚ) : MgrState × ℤ :=
  let rt := pidCall st.pid_temp t dt
  let speed_temp := pyInt rt.1
  let rh := pidCall st.pid_hum hv dt
  let speed_hum := pyInt rh.1
  let final_speed := arbitrate st.control_mode speed_temp speed_hum
  ({ st with pid_temp := rt.2, pid_hum := rh.2,
             current_fan_speed := final_speed }, final_speed)

/-- One pass of the worker's per-sample block (`_worker` lines 126-158)
on an already-parsed JSON object `data`, with `dt` the elapsed time the
PID library measures between calls.  `Except.error st` models a Python
exception escaping the block (caught only by the outer handler at line
178), carrying the manager state at the raise point: the readings are
stored first (under the lock); if `current_temp` is not `None` the
setpoints are refreshed and the two controllers run - a non-numeric
stored reading raises `TypeError` inside the PID arithmetic (for
`current_temp` before the temperature controller runs, for `current_hum`
after it) - then arbitration stores and returns the command. -/
def processSample (st0 : MgrState) (dt : ℚ) (data : JObj) :
    Except MgrState (MgrState × Option ℤ) :=
  let st := storeReadings st0 data
  match st.current_temp with
  | none => Except.ok (st, none)
  | some (JVal.num t) =>
    let st := refreshSetpoints st
    match st.current_hum with
    | some (JVal.num hv) =>
      let r := controlStep st t hv dt
      Except.ok (r.1, some r.2)
    | _ => Except.error { st with pid_temp := (pidCall st.pid_temp t dt).2 }
  | some _ => Except.error (refreshSetpoints st)

/-- The command (if any) written to the actuator for one sample. -/
def sampleCmd (st : MgrState) (dt : ℚ) (data : JObj) : Option ℤ :=
  match processSample st dt data with
  | Except.ok (_, c) => c
  | Except.error _ => none

/-- The manager state after one sample, whether or not the per-sample
block raised (an escaping exception leaves the fields as they were at
the raise point; the outer handler does not touch them). -/
def stepSample (st : MgrState) (s : ℚ × JObj) : MgrState :=
  match processSample st s.1 s.2 with
  | Except.ok (st', _) => st'
  | Except.error st' => st'

/-- The manager state after a whole sequence of samples. -/
def runSamples (st : MgrState) (l : List (ℚ × JObj)) : MgrState :=
  l.foldl stepSample st

/-- The temperature loop's demand for a sample, computed independently:
setpoint refreshed from the target, then one controller update
(`int(self.pid_temp(self.current_temp))`). -/
def tempLoopOutput (st : MgrState) (t dt : ℚ) : ℤ :=
  pyInt (pidCall { st.pid_temp with setpoint := st.target_temp } t dt).1

/-- The humidity loop's demand for a sample, computed independently. -/
def humLoopOutput (st : MgrState) (hv dt : ℚ) : ℤ :=
  pyInt (pidCall { st.pid_hum with setpoint := st.target_hum } hv dt).1

/-- Checks whether `pat` occurs at the start of a character list. -/
def listStartsWith : List Char → List Char → Bool
  | [], _ => true
  | _ :: _, [] => false
  | p :: ps, c :: cs => p == c && listStartsWith ps cs

/-- Checks whether `pat` occurs anywhere in a character list. -/
def listHasSub (pat : List Char) : List Char → Bool
  | [] => pat.isEmpty
  | c :: cs => listStartsWith pat (c :: cs) || listHasSub pat cs

/-- Python's substring test `pat in line` on strings. -/
def strHas (line pat : String) : Bool :=
  listHasSub pat.toList line.toList

/-- What the probe observes from one candidate after opening it: a read
line, or an I/O error raised while polling/reading. -/
inductive ProbeEvent where
  | line (s : String)
  | ioError
deriving DecidableEq, Repr

/-- Outcome of probing one opened candidate. -/
inductive ProbeResult where
  | sensor
  | motor
  | unknown
  | probeError
deriving DecidableEq, Repr

/-- One serial port candidate as `_find_ports` sees it: its device name,
whether `serial.Serial(...)` succeeds, and the events its polling loop
observes in order (an empty list models the 3-second window elapsing
with nothing to read). -/
structure Candidate where
  device : String
  openOk : Bool
  events : List ProbeEvent
deriving DecidableEq, Repr

/-- The polling loop of `_find_ports` (lines 63-71): each line is tested
first for containing both `"temp"` and `"hum"` (then the candidate is a
sensor and the loop breaks), then for containing `"Motor"` or `"Ready"`
(then it is a motor and the loop breaks); a raised I/O error aborts the
whole candidate (caught at line 82); an exhausted window leaves it
unclassified. -/
def probeLines : List ProbeEvent → ProbeResult
  | [] => ProbeResult.unknown
  | ProbeEvent.ioError :: _ => ProbeResult.probeError
  | ProbeEvent.line l :: rest =>
    if strHas l "temp" && strHas l "hum" then ProbeResult.sensor
    else if strHas l "Motor" || strHas l "Ready" then ProbeResult.motor
    else probeLines rest

/-- The device-name filter of `_find_ports` line 54. -/
def nameMatches (d : String) : Bool :=
  strHas d "ACM" || strHas d "USB" || strHas d "COM"

/-- One iteration of the scan loop of `_find_ports` (lines 53-83),
updating the pair `(found_sensor, found_motor)`: a candidate that fails
the name filter is skipped; a failed open or an error while probing is
swallowed and leaves the pair unchanged; a classified candidate's device
is assigned to its role's slot unconditionally. -/
def scanStep (acc : Option String × Option String) (p : Candidate) :
    Option String × Option String :=
  if nameMatches p.device then
    if p.openOk then
      match probeLines p.events with
      | ProbeResult.sensor => (some p.device, acc.2)
      | ProbeResult.motor => (acc.1, some p.device)
      | _ => acc
    else acc
  else acc

/-- `SerialManager._find_ports` (lines 46-85): scans the candidates in
enumeration order and returns `(found_sensor, found_motor)`. -/
def findPorts (ports : List Candidate) : Option String × Option String :=
  ports.foldl scanStep (none, none)

/-- Resource events of one `_find_ports` scan, for serial descriptors. -/
inductive ResEvent where
  | opened (d : String)
  | closed (d : String)
deriving DecidableEq, Repr

/-- Descriptor events of probing one candidate: nothing is opened when
the name filter or the open fails; `s.close()` (line 73) runs only when
the polling loop finishes without raising - an I/O error while probing
jumps to the handler at line 82 without closing. -/
def candTrace (p : Candidate) : List ResEvent :=
  if nameMatches p.device && p.openOk then
    ResEvent.opened p.device ::
      (if probeLines p.events == ProbeResult.probeError then []
       else [ResEvent.closed p.device])
  else []

/-- All descriptor events of one `_find_ports` scan, in order. -/
def findPortsTrace (ports : List Candidate) : List ResEvent :=
  (ports.map candTrace).flatten

/-- Connection bookkeeping of the worker loop: the remembered device
paths `self.sensor_port` / `self.motor_port` and whether the two local
serial handles `sensor_ser` / `motor_ser` are currently held. -/
structure LoopConn where
  sensor_port : Option String
  motor_port : Option String
  sensor_open : Bool
  motor_open : Bool
deriving DecidableEq, Repr

/-- The exception handler of `_worker` (lines 178-186): both serial
handles are closed and dropped and a 2-second sleep follows; the
returned rational is the cooldown.  The remembered ports are not
touched. -/
def handleLoopError (c : LoopConn) : LoopConn × ℚ :=
  ({ c with sensor_open := false, motor_open := false }, 2)

/-- The recovery condition at the top of each worker cycle (line 97):
the cycle runs discovery when either handle is missing. -/
def needsDiscovery (c : LoopConn) : Bool :=
  !c.sensor_open || !c.motor_open

/-- A snapshot of the shared fields an external reader (the `/api/live`
handler of `app.py`, which takes no lock) can observe at once. -/
structure SharedView where
  temperature : Option JVal
  humidity : Option JVal
  fan : ℤ
deriving DecidableEq, Repr

/-- The successive point-in-time states of the reader-visible shared
fields during one per-sample block, one entry per individual field
store.  The lock around lines 127-129 is never taken by the `/api/live`
reader, so the two separate assignments `self.current_temp = ...`
(line 128) and `self.current_hum = ...` (line 129) are each individually
visible to it, as is `self.current_fan_speed = ...` (line 153), executed
outside any lock and only on the path that produces a command.  Index 0
is the state before the block; the following entries are the states
after each store, in program order: temp, then hum, then (possibly)
fan. -/
def cycleViews (st : MgrState) (dt : ℚ) (data : JObj) : List SharedView :=
  ⟨st.current_temp, st.current_hum, st.current_fan_speed⟩ ::
  ⟨jget data "temp", st.current_hum, st.current_fan_speed⟩ ::
  ⟨jget data "temp", jget data "hum", st.current_fan_speed⟩ ::
  (match processSample st dt data with
   | Except.ok (st', some _) =>
     [⟨jget data "temp", jget data "hum", st'.current_fan_speed⟩]
   | _ => [])

/-- What a concurrent `/api/live` reader can assemble during one
per-sample block: `get_live_data` (app.py lines 31-40) fetches
`current_temp`, then `current_hum`, then `current_fan_speed`, one field
at a time and without the lock, so each fetch sees the shared state at
some point `i ≤ j ≤ k` of the block's store sequence (the fetches are in
program order, the stores are in program order, and nothing orders a
fetch against a store). -/
def readerCanObserve (st : MgrState) (dt : ℚ) (data : JObj)
    (v : SharedView) : Prop :=
  ∃ i j k : ℕ, i ≤ j ∧ j ≤ k ∧ k < (cycleViews st dt data).length ∧
    v.temperature =
      ((cycleViews st dt data).getD i ⟨none, none, 0⟩).temperature ∧
    v.humidity =
      ((cycleViews st dt data).getD j ⟨none, none, 0⟩).humidity ∧
    v.fan = ((cycleViews st dt data).getD k ⟨none, none, 0⟩).fan

/-- A well-formed sensor sample carrying numeric `temp` and `hum`. -/
def sampleTH (t hv : ℚ) : JObj :=
  [("temp", JVal.num t), ("hum", JVal.num hv)]

/-- Whether the per-sample block raises an exception that escapes to the
outer handler of `_worker`. -/
def raisesOn (st : MgrState) (dt : ℚ) (data : JObj) : Bool :=
  match processSample st dt data with
  | Except.ok _ => false
  | Except.error _ => true

/-- The candidate is classified with result `r` by the scan: it passes
the name filter, opens, and its probe yields `r`. -/
def rolePred (r : ProbeResult) (p : Candidate) : Bool :=
  nameMatches p.device && p.openOk && (probeLines p.events == r)

/-- The device of the last candidate in scan order classified `r`. -/
def lastMatch (ports : List Candidate) (r : ProbeResult) : Option String :=
  ((ports.filter (rolePred r)).getLast?).map Candidate.device

/-- Keeps `o` when it is set, otherwise falls back to `a`. -/
def lastOr (a o : Option String) : Option String :=
  match o with
  | some d => some d
  | none => a

/-- The clamp-relevant part of the controller state: both PIDs carry the
configured limits `(0, 255)` and the stored fan speed lies in
`[0, 255]`. -/
def fanInv (st : MgrState) : Prop :=
  st.pid_temp.outMin = 0 ∧ st.pid_temp.outMax = 255 ∧
  st.pid_hum.outMin = 0 ∧ st.pid_hum.outMax = 255 ∧
  0 ≤ st.current_fan_speed ∧ st.current_fan_speed ≤ 255

/-- Manager state for the worked scenario of spec section 8: mode
Temperature, target 22.0, temperature gains `(Kp=-10, Ki=0, Kd=0)`,
output limits `(0, 255)`. -/
def c1State : MgrState :=
  { initMgrState with pid_temp := { initPidTemp with Ki := 0, Kd := 0 } }

/-- A manager state holding earlier readings and an earlier fan speed. -/
def c9State : MgrState :=
  { initMgrState with current_temp := some (JVal.num 20),
                      current_hum := some (JVal.num 55),
                      current_fan_speed := 7 }

/-- An operating connection: both ports bound, both handles held. -/
def opConn : LoopConn :=
  ⟨some "/dev/ttyACM0", some "/dev/ttyACM1", true, true⟩

/-- A candidate emitting a sensor-shaped line, named COM1. -/
def comCand1 : Candidate :=
  ⟨"COM1", true, [ProbeEvent.line "temp 22.1 hum 44.0"]⟩

/-- A second candidate emitting a sensor-shaped line, named COM2. -/
def comCand2 : Candidate :=
  ⟨"COM2", true, [ProbeEvent.line "temp 21.5 hum 40.2"]⟩

/-- A candidate emitting a motor banner, named USB1. -/
def c6MotorCand : Candidate :=
  ⟨"USB1", true, [ProbeEvent.line "Motor Controller Ready"]⟩

/-- A sensor-like candidate used in the descriptor accounting. -/
def c8Sensor : Candidate :=
  ⟨"COM3", true, [ProbeEvent.line "temp 20.0 hum 30.0"]⟩

/-- A banner-emitting candidate used in the descriptor accounting. -/
def c8Motor : Candidate :=
  ⟨"USB3", true, [ProbeEvent.line "Ready"]⟩

/-- A candidate whose open call fails. -/
def c8OpenFail : Candidate :=
  ⟨"USB9", false, []⟩

/-- A candidate whose probe raises an I/O error after a successful
open. -/
def c8Leak : Candidate :=
  ⟨"USB0", true, [ProbeEvent.ioError]⟩

theorem clampQ_lower (x lo hi : ℚ) (h : lo ≤ hi) : lo ≤ clampQ x lo hi := by
  unfold clampQ
  split_ifs <;> linarith

theorem clampQ_upper (x lo hi : ℚ) (h : lo ≤ hi) : clampQ x lo hi ≤ hi := by
  unfold clampQ
  split_ifs <;> linarith

theorem pidCall_fst_lower (st : PIDState) (i dt : ℚ) (h : st.outMin ≤ st.outMax) :
    st.outMin ≤ (pidCall st i dt).1 :=
  clampQ_lower _ _ _ h

theorem pidCall_fst_upper (st : PIDState) (i dt : ℚ) (h : st.outMin ≤ st.outMax) :
    (pidCall st i dt).1 ≤ st.outMax :=
  clampQ_upper _ _ _ h

theorem pyInt_lower (q : ℚ) (h : 0 ≤ q) : 0 ≤ pyInt q := by
  rw [pyInt, if_pos h]
  exact Int.le_floor.mpr (by exact_mod_cast h)

theorem pyInt_upper (q : ℚ) (h0 : 0 ≤ q) (h : q ≤ 255) : pyInt q ≤ 255 := by
  rw [pyInt, if_pos h0]
  calc ⌊q⌋ ≤ ⌊(255 : ℚ)⌋ := Int.floor_mono h
  _ = 255 := by norm_num

theorem arbitrate_lower (m : String) (a b : ℤ) (ha : 0 ≤ a) (hb : 0 ≤ b) :
    0 ≤ arbitrate m a b := by
  unfold arbitrate
  split_ifs
  · exact ha
  · exact hb
  · exact le_max_of_le_left ha
  · exact le_refl 0

theorem arbitrate_upper (m : String) (a b : ℤ) (ha : a ≤ 255) (hb : b ≤ 255) :
    arbitrate m a b ≤ 255 := by
  unfold arbitrate
  split_ifs
  · exact ha
  · exact hb
  · exact max_le ha hb
  · norm_num

theorem controlStep_fanInv (st : MgrState) (t hv dt : ℚ) (h : fanInv st) :
    fanInv (controlStep st t hv dt).1 := by
  obtain ⟨h1, h2, h3, h4, _, _⟩ := h
  have hlim_t : st.pid_temp.outMin ≤ st.pid_temp.outMax := by
    rw [h1, h2]; norm_num
  have hlim_h : st.pid_hum.outMin ≤ st.pid_hum.outMax := by
    rw [h3, h4]; norm_num
  have ht0 : (0 : ℚ) ≤ (pidCall st.pid_temp t dt).1 := by
    have := pidCall_fst_lower st.pid_temp t dt hlim_t
    rwa [h1] at this
  have ht1 : (pidCall st.pid_temp t dt).1 ≤ 255 := by
    have := pidCall_fst_upper st.pid_temp t dt hlim_t
    rwa [h2] at this
  have hh0 : (0 : ℚ) ≤ (pidCall st.pid_hum hv dt).1 := by
    have := pidCall_fst_lower st.pid_hum hv dt hlim_h
    rwa [h3] at this
  have hh1 : (pidCall st.pid_hum hv dt).1 ≤ 255 := by
    have := pidCall_fst_upper st.pid_hum hv dt hlim_h
    rwa [h4] at this
  exact ⟨h1, h2, h3, h4,
    arbitrate_lower _ _ _ (pyInt_lower _ ht0) (pyInt_lower _ hh0),
    arbitrate_upper _ _ _ (pyInt_upper _ ht0 ht1) (pyInt_upper _ hh0 hh1)⟩

theorem refreshSetpoints_hum (st : MgrState) :
    (refreshSetpoints st).current_hum = st.current_hum := rfl

theorem stepSample_fanInv (st : MgrState) (s : ℚ × JObj) (h : fanInv st) :
    fanInv (stepSample st s) := by
  obtain ⟨dt, data⟩ := s
  have hstore : fanInv (storeReadings st data) := h
  simp only [stepSample, processSample]
  cases hT : (storeReadings st data).current_temp with
  | none =>
    simp only [hT]
    exact hstore
  | some tv =>
    cases tv with
    | num t =>
      simp only [hT]
      cases hH : (storeReadings st data).current_hum with
      | none =>
        simp only [refreshSetpoints_hum, hH]
        exact hstore
      | some hvv =>
        cases hvv with
        | num hv =>
          simp only [refreshSetpoints_hum, hH]
          exact controlStep_fanInv _ _ _ _ hstore
        | str s =>
          simp only [refreshSetpoints_hum, hH]
          exact hstore
        | null =>
          simp only [refreshSetpoints_hum, hH]
          exact hstore
    | str s =>
      simp only [hT]
      exact hstore
    | null =>
      simp only [hT]
      exact hstore

theorem runSamples_fanInv (st : MgrState) (l : List (ℚ × JObj)) (h : fanInv st) :
    fanInv (runSamples st l) := by
  induction l generalizing st with
  | nil => exact h
  | cons s rest ih => exact ih (stepSample st s) (stepSample_fanInv st s h)

/-- C1: with mode Temperature, setpoint 22.0, measurement 25.0, gains
`(Kp=-10, Ki=0, Kd=0)` and output limits `(0, 255)`, one control step
gives error `22.0 - 25.0 = -3.0`, raw output
`clamp(Kp*error + Ki*integral + Kd*derivative, 0, 255) = 30`, the command
sent to the actuator is 30, and the stored fan speed is 30. -/
theorem c1_temperature_scenario :
    ((22 : ℚ) - 25 = -3) ∧
    clampQ ((-10) * ((22 : ℚ) - 25) + 0 + 0) 0 255 = 30 ∧
    sampleCmd c1State 1 (sampleTH 25 50) = some 30 ∧
    (stepSample c1State (1, sampleTH 25 50)).current_fan_speed = 30 := by
  refine ⟨by norm_num, by norm_num [clampQ], ?_, ?_⟩
  · simp [sampleCmd, processSample, storeReadings, refreshSetpoints, jget,
      c1State, initMgrState, initPidTemp, initPidHum, sampleTH]
    norm_num [controlStep, arbitrate, pidCall, clampQ, pyInt]
  · simp [stepSample, processSample, storeReadings, refreshSetpoints, jget,
      c1State, initMgrState, initPidTemp, initPidHum, sampleTH]
    norm_num [controlStep, arbitrate, pidCall, clampQ, pyInt]

/-- C2: for every state and numeric sample, the arbitrated command is
the temperature loop's output in mode `TEMP`, the humidity loop's output
in mode `HUM`, and the maximum of the two in mode `AUTO`, each loop
output computed independently from the same sample. -/
theorem c2_mode_arbitration (st : MgrState) (t hv dt : ℚ) :
    sampleCmd st dt (sampleTH t hv) =
      some (if st.control_mode = "TEMP" then tempLoopOutput st t dt
            else if st.control_mode = "HUM" then humLoopOutput st hv dt
            else if st.control_mode = "AUTO" then
              max (tempLoopOutput st t dt) (humLoopOutput st hv dt)
            else 0) := by
  simp [sampleCmd, processSample, storeReadings, refreshSetpoints, jget,
    sampleTH, controlStep, arbitrate, tempLoopOutput, humLoopOutput]

/-- C3: for every starting state whose controllers carry the configured
limits `(0, 255)` and whose stored fan speed is in `[0, 255]`, and for
every sequence of sensor samples of any magnitude and any mode string,
the stored fan speed stays an integer in `[0, 255]`. -/
theorem c3_output_clamped (st : MgrState) (l : List (ℚ × JObj)) (h : fanInv st) :
    0 ≤ (runSamples st l).current_fan_speed ∧
    (runSamples st l).current_fan_speed ≤ 255 := by
  have hinv := runSamples_fanInv st l h
  exact ⟨hinv.2.2.2.2.1, hinv.2.2.2.2.2⟩

/-- Witness for C3 at the initial manager state and a sample of extreme
magnitude. -/
theorem c3_output_clamped_witness :
    0 ≤ (runSamples initMgrState [(1, sampleTH 100000 (-100000))]).current_fan_speed ∧
    (runSamples initMgrState [(1, sampleTH 100000 (-100000))]).current_fan_speed ≤ 255 :=
  c3_output_clamped initMgrState [(1, sampleTH 100000 (-100000))]
    (by norm_num [fanInv, initMgrState, initPidTemp, initPidHum])

/-- C4 counterexample: when the valid JSON line carries `temp` of the
wrong type, the reading is not left unset - the raw string is stored
into `current_temp` - and the block raises (a `TypeError` escaping to
the outer handler) rather than continuing without error. -/
theorem c4_wrong_type_counterexample :
    (stepSample initMgrState (1, [("temp", JVal.str "warm")])).current_temp =
      some (JVal.str "warm") ∧
    raisesOn initMgrState 1 [("temp", JVal.str "warm")] = true := by
  constructor
  · simp [stepSample, processSample, storeReadings, refreshSetpoints, jget]
  · simp [raisesOn, processSample, storeReadings, refreshSetpoints, jget]

/-- C4 amended: on a wrong-typed `temp` value the raw string is stored
into `current_temp` (while `current_hum` stays unset) and no actuator
command is written for that cycle; the block raises an exception that
the loop's outer handler absorbs, so the loop itself survives and the
next cycle re-enters discovery. -/
theorem c4_wrong_type_amended :
    (stepSample initMgrState (1, [("temp", JVal.str "warm")])).current_temp =
      some (JVal.str "warm") ∧
    (stepSample initMgrState (1, [("temp", JVal.str "warm")])).current_hum = none ∧
    sampleCmd initMgrState 1 [("temp", JVal.str "warm")] = none ∧
    raisesOn initMgrState 1 [("temp", JVal.str "warm")] = true ∧
    needsDiscovery (handleLoopError opConn).1 = true := by
  refine ⟨?_, ?_, ?_, ?_, rfl⟩
  · simp [stepSample, processSample, storeReadings, refreshSetpoints, jget]
  · simp [stepSample, processSample, storeReadings, refreshSetpoints, jget]
  · simp [sampleCmd, processSample, storeReadings, refreshSetpoints, jget]
  · simp [raisesOn, processSample, storeReadings, refreshSetpoints, jget]

/-- C5 counterexample: after the worker's exception handler runs on an
operating connection, the bound ports are not cleared back to unset -
they still hold the previously bound device paths. -/
theorem c5_ports_not_cleared :
    (handleLoopError opConn).1.sensor_port = some "/dev/ttyACM0" ∧
    (handleLoopError opConn).1.motor_port = some "/dev/ttyACM1" ∧
    (handleLoopError opConn).1.sensor_port ≠ none := by
  refine ⟨rfl, rfl, ?_⟩
  simp [handleLoopError, opConn]

/-- C5 amended: on any I/O error while operating, both serial handles
are closed and dropped within the cycle, a 2-time-unit cooldown is
applied, and the next cycle re-enters discovery without the loop
crashing; the bound ports, however, are kept (and reused by the
reconnection attempt), not cleared. -/
theorem c5_error_recovery (c : LoopConn) :
    (handleLoopError c).1.sensor_open = false ∧
    (handleLoopError c).1.motor_open = false ∧
    (handleLoopError c).2 = 2 ∧
    needsDiscovery (handleLoopError c).1 = true ∧
    (handleLoopError c).1.sensor_port = c.sensor_port ∧
    (handleLoopError c).1.motor_port = c.motor_port := by
  simp [handleLoopError, needsDiscovery]

theorem lastOr_none (o : Option String) : lastOr none o = o := by
  cases o <;> rfl

theorem lastMatch_concat (ps : List Candidate) (p : Candidate) (r : ProbeResult) :
    lastMatch (ps ++ [p]) r =
      (if rolePred r p then some p.device else lastMatch ps r) := by
  by_cases hp : rolePred r p = true
  · simp [lastMatch, List.filter_append, hp, List.getLast?_concat]
  · simp only [Bool.not_eq_true] at hp
    simp [lastMatch, List.filter_append, hp]

theorem scanStep_eq (x y : Option String) (p : Candidate) :
    scanStep (x, y) p =
      (if rolePred ProbeResult.sensor p then some p.device else x,
       if rolePred ProbeResult.motor p then some p.device else y) := by
  unfold scanStep rolePred
  cases hnm : nameMatches p.device <;> cases hop : p.openOk <;>
    rcases hpl : probeLines p.events <;> simp [hnm, hop, hpl]

theorem scan_foldl_char (ports : List Candidate) :
    ∀ a b, ports.foldl scanStep (a, b) =
      (lastOr a (lastMatch ports ProbeResult.sensor),
       lastOr b (lastMatch ports ProbeResult.motor)) := by
  induction ports using List.reverseRecOn with
  | nil =>
    intro a b
    simp [lastMatch, lastOr]
  | append_singleton ps p ih =>
    intro a b
    rw [List.foldl_append, ih, List.foldl_cons, List.foldl_nil, scanStep_eq,
      lastMatch_concat, lastMatch_concat]
    by_cases hs : rolePred ProbeResult.sensor p = true <;>
      by_cases hm : rolePred ProbeResult.motor p = true <;>
        simp [hs, hm, lastOr]

/-- C6 amended: per role, the scan binds the last (not the first)
candidate in read order whose probe classifies it to that role - the
per-line checks still test the sensor pattern before the banner pattern,
as encoded in `probeLines` - and consequently a candidate set holding
exactly one sensor-classified and exactly one motor-classified device is
paired correctly regardless of enumeration order. -/
theorem c6_last_match_per_role (ports : List Candidate) :
    findPorts ports =
      (lastMatch ports ProbeResult.sensor, lastMatch ports ProbeResult.motor) ∧
    (∀ cs cm : Candidate,
      ports.filter (rolePred ProbeResult.sensor) = [cs] →
      ports.filter (rolePred ProbeResult.motor) = [cm] →
      findPorts ports = (some cs.device, some cm.device)) := by
  have hchar : findPorts ports =
      (lastMatch ports ProbeResult.sensor, lastMatch ports ProbeResult.motor) := by
    unfold findPorts
    rw [scan_foldl_char, lastOr_none, lastOr_none]
  refine ⟨hchar, ?_⟩
  intro cs cm hs hm
  rw [hchar]
  simp [lastMatch, hs, hm]

/-- Witness for C6 amended: one banner device and one sensor device,
enumerated with the banner device first, are paired correctly. -/
theorem c6_last_match_per_role_witness :
    findPorts [c6MotorCand, comCand1] = (some "COM1", some "USB1") :=
  (c6_last_match_per_role [c6MotorCand, comCand1]).2 comCand1 c6MotorCand
    (by decide) (by decide)

/-- C6 counterexample: two sensor-classified candidates in read order
COM1 then COM2 - the scan binds COM2, the last match, not the first
candidate COM1. -/
theorem c6_first_match_counterexample :
    findPorts [comCand1, comCand2] = (some "COM2", none) ∧
    ("COM2" : String) ≠ "COM1" := by
  constructor
  · decide
  · decide

/-- C7: the stored setpoints of both controllers are overwritten from
the shared targets before any output is computed, so the whole step is
invariant under whatever stale setpoints the controllers carried, and
the command equals the arbitration of loop outputs computed with the
setpoints equal to the current targets. -/
theorem c7_setpoint_refresh (st : MgrState) (s1 s2 t hv dt : ℚ) :
    processSample
      { st with pid_temp := { st.pid_temp with setpoint := s1 },
                pid_hum := { st.pid_hum with setpoint := s2 } } dt (sampleTH t hv) =
      processSample st dt (sampleTH t hv) ∧
    sampleCmd st dt (sampleTH t hv) =
      some (arbitrate st.control_mode (tempLoopOutput st t dt)
        (humLoopOutput st hv dt)) := by
  constructor
  · simp [processSample, storeReadings, refreshSetpoints, jget, sampleTH,
      controlStep]
  · simp [sampleCmd, processSample, storeReadings, refreshSetpoints, jget,
      sampleTH, controlStep, arbitrate, tempLoopOutput, humLoopOutput]

theorem candTrace_balanced (p : Candidate)
    (h : probeLines p.events ≠ ProbeResult.probeError) (d : String) :
    (candTrace p).count (ResEvent.opened d) =
      (candTrace p).count (ResEvent.closed d) := by
  unfold candTrace
  cases hnm : (nameMatches p.device && p.openOk) with
  | false => simp [hnm]
  | true =>
    have hpe : (probeLines p.events == ProbeResult.probeError) = false := by
      simpa using h
    by_cases hd : p.device = d <;>
      simp [hnm, hpe, List.count_cons, hd]

/-- C8 amended: when no probe raises, every opened descriptor is closed
before the scan returns (the open and close events balance for every
device); a candidate that fails to open, or whose probe raises after a
successful open, does not abort the scan - the classification of the
remaining candidates is unaffected.  A probe error does, however, leak
that candidate's descriptor (see the counterexample). -/
theorem c8_close_unless_probe_error (ports : List Candidate) (c : Candidate)
    (rest : List Candidate)
    (h : ∀ p ∈ ports, probeLines p.events ≠ ProbeResult.probeError)
    (hc : c.openOk = false ∨ probeLines c.events = ProbeResult.probeError) :
    (∀ d, (findPortsTrace ports).count (ResEvent.opened d) =
          (findPortsTrace ports).count (ResEvent.closed d)) ∧
    findPorts (c :: rest) = findPorts rest := by
  constructor
  · intro d
    induction ports with
    | nil => simp [findPortsTrace]
    | cons p ps ih =>
      have hp : probeLines p.events ≠ ProbeResult.probeError :=
        h p (List.mem_cons_self p ps)
      have hps : ∀ q ∈ ps, probeLines q.events ≠ ProbeResult.probeError :=
        fun q hq => h q (List.mem_cons_of_mem p hq)
      simp only [findPortsTrace, List.map_cons, List.flatten_cons,
        List.count_append]
      rw [candTrace_balanced p hp d]
      have := ih hps
      simp only [findPortsTrace] at this
      rw [this]
  · have hstep : scanStep (none, none) c = (none, none) := by
      rcases hc with hc | hc <;> simp [scanStep, hc]
    simp [findPorts, List.foldl_cons, hstep]

/-- Witness for C8 amended: a sensor device and a banner device probe
without error and their descriptors balance; an unopenable candidate in
front of the sensor device leaves its classification unchanged. -/
theorem c8_close_unless_probe_error_witness :
    (findPortsTrace [c8Sensor, c8Motor]).count (ResEvent.opened "USB3") =
      (findPortsTrace [c8Sensor, c8Motor]).count (ResEvent.closed "USB3") ∧
    findPorts (c8OpenFail :: [c8Sensor]) = findPorts [c8Sensor] :=
  ⟨(c8_close_unless_probe_error [c8Sensor, c8Motor] c8OpenFail [c8Sensor]
      (by decide) (by decide)).1 "USB3",
   (c8_close_unless_probe_error [c8Sensor, c8Motor] c8OpenFail [c8Sensor]
      (by decide) (by decide)).2⟩

/-- C8 counterexample: a candidate that opens and then raises during the
probe is left open - the scan records the open but no close for it, so
not every opened descriptor is closed before returning. -/
theorem c8_probe_error_leak :
    findPortsTrace [c8Leak] = [ResEvent.opened "USB0"] ∧
    (findPortsTrace [c8Leak]).count (ResEvent.closed "USB0") = 0 := by
  constructor
  · decide
  · decide

theorem cycleViews_sampleTH (st : MgrState) (t hv dt : ℚ) :
    cycleViews st dt (sampleTH t hv) =
      [⟨st.current_temp, st.current_hum, st.current_fan_speed⟩,
       ⟨some (JVal.num t), st.current_hum, st.current_fan_speed⟩,
       ⟨some (JVal.num t), some (JVal.num hv), st.current_fan_speed⟩,
       ⟨some (JVal.num t), some (JVal.num hv),
        (stepSample st (dt, sampleTH t hv)).current_fan_speed⟩] := by
  simp [cycleViews, processSample, storeReadings, refreshSetpoints, jget,
    sampleTH, stepSample]

/-- C9 counterexample: running the per-sample block on earlier readings
`(20, 55)` with stored fan speed 7 and a new sample `(30, 80)`, the
lockless reader can assemble the state `(30, 55, 7)` - the new
temperature with the old humidity and old output, observable between
the two reading stores because the reader never takes the lock - and
even `(20, 55, 80)` - the new actuator output paired with the old
readings it was not computed from.  Both refute publication under one
exclusive critical section, the no-partial-mix guarantee, and the
never-output-without-its-readings guarantee. -/
theorem c9_mixed_view_counterexample :
    readerCanObserve c9State 1 (sampleTH 30 80)
      ⟨some (JVal.num 30), some (JVal.num 55), 7⟩ ∧
    readerCanObserve c9State 1 (sampleTH 30 80)
      ⟨some (JVal.num 20), some (JVal.num 55), 80⟩ ∧
    (some (JVal.num 30) : Option JVal) ≠ some (JVal.num 20) ∧
    (some (JVal.num 80) : Option JVal) ≠ some (JVal.num 55) ∧
    ((80 : ℤ) ≠ 7) := by
  have hcv : cycleViews c9State 1 (sampleTH 30 80) =
      [⟨some (JVal.num 20), some (JVal.num 55), 7⟩,
       ⟨some (JVal.num 30), some (JVal.num 55), 7⟩,
       ⟨some (JVal.num 30), some (JVal.num 80), 7⟩,
       ⟨some (JVal.num 30), some (JVal.num 80), 80⟩] := by
    simp [cycleViews, processSample, storeReadings, refreshSetpoints, jget,
      c9State, initMgrState, initPidTemp, initPidHum, sampleTH]
    norm_num [controlStep, arbitrate, pidCall, clampQ, pyInt]
  refine ⟨⟨1, 1, 1, ?_, ?_, ?_, ?_, ?_, ?_⟩, ⟨0, 0, 3, ?_, ?_, ?_, ?_, ?_, ?_⟩,
    by decide, by decide, by decide⟩ <;> simp [hcv]

/-- C9 amended: the three shared fields are stored by three separate
assignments none of which the lockless reader is excluded from, so a
concurrent reader can assemble every combination of the old and the new
values of the three fields during a block on a numeric sample - partial
mixes of old and new included, and even an actuator output paired with
readings it was not computed from - and nothing more: each observed
field is always either the previous value or the newly stored one. -/
theorem c9_no_atomic_publish (st : MgrState) (t hv dt : ℚ) (v : SharedView) :
    readerCanObserve st dt (sampleTH t hv) v ↔
      ((v.temperature = st.current_temp ∨
        v.temperature = some (JVal.num t)) ∧
       (v.humidity = st.current_hum ∨ v.humidity = some (JVal.num hv)) ∧
       (v.fan = st.current_fan_speed ∨
        v.fan = (stepSample st (dt, sampleTH t hv)).current_fan_speed)) := by
  have hcv := cycleViews_sampleTH st t hv dt
  constructor
  · rintro ⟨i, j, k, hij, hjk, hk, ht, hh, hf⟩
    rw [hcv] at hk ht hh hf
    simp only [List.length_cons, List.length_nil] at hk
    refine ⟨?_, ?_, ?_⟩
    · have hi4 : i < 4 := by omega
      interval_cases i
      · exact Or.inl (by simpa using ht)
      · exact Or.inr (by simpa using ht)
      · exact Or.inr (by simpa using ht)
      · exact Or.inr (by simpa using ht)
    · have hj4 : j < 4 := by omega
      interval_cases j
      · exact Or.inl (by simpa using hh)
      · exact Or.inl (by simpa using hh)
      · exact Or.inr (by simpa using hh)
      · exact Or.inr (by simpa using hh)
    · have hk4 : k < 4 := by omega
      interval_cases k
      · exact Or.inl (by simpa using hf)
      · exact Or.inl (by simpa using hf)
      · exact Or.inl (by simpa using hf)
      · exact Or.inr (by simpa using hf)
  · rintro ⟨ht | ht, hh | hh, hf | hf⟩
    · exact ⟨0, 0, 0, by omega, by omega, by simp [hcv],
        by simp [hcv]; exact ht, by simp [hcv]; exact hh,
        by simp [hcv]; exact hf⟩
    · exact ⟨0, 0, 3, by omega, by omega, by simp [hcv],
        by simp [hcv]; exact ht, by simp [hcv]; exact hh,
        by simp [hcv]; exact hf⟩
    · exact ⟨0, 2, 2, by omega, by omega, by simp [hcv],
        by simp [hcv]; exact ht, by simp [hcv]; exact hh,
        by simp [hcv]; exact hf⟩
    · exact ⟨0, 2, 3, by omega, by omega, by simp [hcv],
        by simp [hcv]; exact ht, by simp [hcv]; exact hh,
        by simp [hcv]; exact hf⟩
    · exact ⟨1, 1, 1, by omega, by omega, by simp [hcv],
        by simp [hcv]; exact ht, by simp [hcv]; exact hh,
        by simp [hcv]; exact hf⟩
    · exact ⟨1, 1, 3, by omega, by omega, by simp [hcv],
        by simp [hcv]; exact ht, by simp [hcv]; exact hh,
        by simp [hcv]; exact hf⟩
    · exact ⟨1, 2, 2, by omega, by omega, by simp [hcv],
        by simp [hcv]; exact ht, by simp [hcv]; exact hh,
        by simp [hcv]; exact hf⟩
    · exact ⟨1, 2, 3, by omega, by omega, by simp [hcv],
        by simp [hcv]; exact ht, by simp [hcv]; exact hh,
        by simp [hcv]; exact hf⟩

/-- C10: whenever the stored mode string is none of `TEMP`, `HUM`,
`AUTO` - such a string can reach the core because the settings endpoint
stores the posted mode without validation - the arbitrated command for a
numeric sample is 0: fan speed 0 is stored and written to the
actuator. -/
theorem c10_unknown_mode_zero (st : MgrState) (t hv dt : ℚ)
    (h1 : st.control_mode ≠ "TEMP") (h2 : st.control_mode ≠ "HUM")
    (h3 : st.control_mode ≠ "AUTO") :
    sampleCmd st dt (sampleTH t hv) = some 0 ∧
    (stepSample st (dt, sampleTH t hv)).current_fan_speed = 0 := by
  constructor <;>
    simp [sampleCmd, stepSample, processSample, storeReadings,
      refreshSetpoints, jget, sampleTH, controlStep, arbitrate, h1, h2, h3]

/-- Witness for C10 with the mode string `banana` stored through the
settings endpoint. -/
theorem c10_unknown_mode_zero_witness :
    sampleCmd (update_settings initMgrState none none (some "banana")) 1
      (sampleTH 30 80) = some 0 ∧
    (stepSample (update_settings initMgrState none none (some "banana"))
      (1, sampleTH 30 80)).current_fan_speed = 0 :=
  c10_unknown_mode_zero _ 30 80 1
    (by simp [update_settings, initMgrState])
    (by simp [update_settings, initMgrState])
    (by simp [update_settings, initMgrState])
